import Mathlib

/-!  Shallow embedding of the clicker-game WebSocket server
     (src/server/index.js, and the second variant src/unnamed/part_000).

     JavaScript strings are modelled as Lean String values, the SQLite
     tables (players, bans, chat, shop_items) as lists, the in-memory
     clients Map (ws connection to claimed nickname) as an association
     list keyed by a connection id, and each message handler as a pure
     function from server state to server state together with the reply
     or broadcast it emits.  The single-threaded event-loop of node.js
     means each inbound message is handled as one atomic step, so a
     sequence of messages is a fold of these functions. -/

namespace Clicker

/-- Model of the JavaScript String.prototype.trim operation.  The source
only ever trims ASCII whitespace in the inputs relevant here. -/
def jsTrim (s : String) : String :=
  String.mk (((s.data.dropWhile Char.isWhitespace).reverse.dropWhile
      Char.isWhitespace).reverse)

/-- Model of s.slice(0, n) on a JavaScript string: the first n characters. -/
def jsSlice (s : String) (n : Nat) : String :=
  String.mk (s.data.take n)

/-- Model of s.toLowerCase() (ASCII letters; the names compared in the
source are ASCII). -/
def jsToLower (s : String) : String :=
  String.mk (s.data.map Char.toLower)

/-- Model of s.startsWith(t). -/
def jsStartsWith (s t : String) : Bool :=
  s.data.take t.data.length == t.data

/-- Model of String(x) applied to a field that is either a string or
absent: String(undefined) is the literal string "undefined"
(src/server/index.js line 116 has no fallback for a missing field). -/
def jsStringCoerce : Option String → String
  | none => "undefined"
  | some s => s

/-- Model of String(x || "") applied to a field that is either a string
or absent: a missing (or empty, hence falsy) field becomes "".  Used by
src/unnamed/part_000 line 101 and by the chat handlers of both files. -/
def jsOrEmpty : Option String → String
  | none => ""
  | some s => s

/-- Helper for splitWs: accumulates the current word (reversed). -/
def splitWsAux : List Char → List Char → List String
  | [], acc => if acc = [] then [] else [String.mk acc.reverse]
  | c :: cs, acc =>
    if Char.isWhitespace c then
      if acc = [] then splitWsAux cs [] else String.mk acc.reverse :: splitWsAux cs []
    else splitWsAux cs (c :: acc)

/-- Model of text.split on a whitespace-run regular expression, as used on
the already-trimmed command text in both chat handlers (on trimmed input
the JavaScript split produces exactly the whitespace-separated words). -/
def splitWs (s : String) : List String :=
  splitWsAux s.data []

/-- Row of the players table.  Column names follow the schema
(coins, tap_value, auto_per_sec, taps, icon; nickname is the key). -/
structure Player where
  nickname : String
  coins : Int
  tap_value : Int
  auto_per_sec : Int
  taps : Int
  icon : Option String
deriving Repr, DecidableEq

/-- Row of the shop_items table.  The column called type in the schema is
named itemType here because type is a reserved word in Lean. -/
structure ShopItem where
  id : String
  name : String
  price : Int
  itemType : String
  value : Int
deriving Repr, DecidableEq

/-- Row of the chat table; ts is the stored timestamp in whole seconds. -/
structure ChatRow where
  nickname : String
  icon : Option String
  text : String
  ts : Nat
deriving Repr, DecidableEq

/-- The mutable server state: the in-memory clients map (connection id to
claimed nickname or none) and the persistent tables.  The shop table is
seeded at startup and read-only afterwards. -/
structure ServerState where
  clients : List (Nat × Option String)
  players : List Player
  bans : List (String × String)
  chatLog : List ChatRow
  shop : List ShopItem
deriving Repr, DecidableEq

/-- The SHOP_DEFAULTS seed (both files, lines 24 to 29). -/
def shopDefaults : List ShopItem :=
  [ { id := "cheapUp", name := "タップ力 +1", price := 10, itemType := "tap", value := 1 },
    { id := "midUp", name := "タップ力 +5", price := 45, itemType := "tap", value := 5 },
    { id := "auto1", name := "自動収入 +1/s", price := 30, itemType := "auto", value := 1 },
    { id := "auto5", name := "自動収入 +5/s", price := 130, itemType := "auto", value := 5 } ]

/-- Prepared statement findPlayer: SELECT * FROM players WHERE nickname = ?
(nickname is the primary key, so the first match is the row). -/
def findPlayer (players : List Player) (nickname : String) : Option Player :=
  players.find? (fun p => p.nickname == nickname)

/-- Row inserted by createPlayer during setName: zeroed counters,
tap_value 1, no icon (both files). -/
def newPlayer (nickname : String) : Player :=
  { nickname := nickname, coins := 0, tap_value := 1, auto_per_sec := 0,
    taps := 0, icon := none }

/-- Row inserted by the icon-upload endpoint when no player exists yet:
zeroed counters, tap_value 1, the fresh icon URL. -/
def newPlayerWithIcon (nickname iconUrl : String) : Player :=
  { nickname := nickname, coins := 0, tap_value := 1, auto_per_sec := 0,
    taps := 0, icon := some iconUrl }

/-- Model of an UPDATE ... WHERE nickname = ? statement: rewrite the
matching row (the key is unique, so at most one row matches). -/
def updatePlayer (players : List Player) (nickname : String)
    (f : Player → Player) : List Player :=
  players.map (fun p => if p.nickname == nickname then f p else p)

/-- Prepared statement findBan: SELECT * FROM bans WHERE nickname = ?. -/
def findBan (bans : List (String × String)) (nickname : String) :
    Option (String × String) :=
  bans.find? (fun b => b.1 == nickname)

/-- Prepared statement addBan: INSERT OR REPLACE INTO bans, keyed by
nickname (re-banning replaces the reason). -/
def upsertBan (bans : List (String × String)) (nickname reason : String) :
    List (String × String) :=
  if bans.any (fun b => b.1 == nickname) then
    bans.map (fun b => if b.1 == nickname then (nickname, reason) else b)
  else bans ++ [(nickname, reason)]

/-- Prepared statement removeBan: DELETE FROM bans WHERE nickname = ?. -/
def removeBan (bans : List (String × String)) (nickname : String) :
    List (String × String) :=
  bans.filter (fun b => b.1 != nickname)

/-- Model of clients.set(ws, v): overwrite the entry of connection ws, or
add it when the connection is not yet in the map. -/
def mapSet (m : List (Nat × Option String)) (ws : Nat) (v : Option String) :
    List (Nat × Option String) :=
  if m.any (fun p => p.1 == ws) then
    m.map (fun p => if p.1 == ws then (ws, v) else p)
  else m ++ [(ws, v)]

/-- Model of Array.from(clients.values()).some(n => n === nickname): some
live connection currently holds this nickname. -/
def inUse (m : List (Nat × Option String)) (nickname : String) : Bool :=
  m.any (fun p => p.2 == some nickname)

/-- Reply to a setName message: setNameResult with ok true and the bound
nickname, or ok false and a reason string. -/
inductive SetNameResult where
  | ok (nickname : String)
  | err (reason : String)
deriving Repr, DecidableEq

/-- Body shared verbatim by the setName handlers of both source files
(src/server/index.js lines 117 to 137, src/unnamed/part_000 lines 102 to
115), after the nickname has been coerced, trimmed and truncated.  The
secret is the process-wide ADMIN_TOKEN.  The COUNT query on line 126 of
src/server/index.js binds an unused local and has no effect, so it is not
modelled. -/
def setNameCore (secret : String) (st : ServerState) (ws : Nat)
    (nickname : String) (adminToken : Option String) :
    ServerState × SetNameResult :=
  if nickname = "" then (st, .err "empty")
  else if jsToLower nickname = "admin" ∧ adminToken ≠ some secret then
    (st, .err "admin_auth")
  else if (findBan st.bans nickname).isSome then (st, .err "banned")
  else if inUse st.clients nickname then (st, .err "inuse")
  else
    let players' :=
      match findPlayer st.players nickname with
      | some _ => st.players
      | none => st.players ++ [newPlayer nickname]
    ({ st with players := players',
               clients := mapSet st.clients ws (some nickname) },
     .ok nickname)

/-- The setName handler of src/server/index.js (lines 115 to 138): the
nickname field is coerced with String(...), so an absent field becomes
the literal string "undefined", then trimmed and truncated to 32. -/
def handleSetName (secret : String) (st : ServerState) (ws : Nat)
    (rawNickname adminToken : Option String) : ServerState × SetNameResult :=
  setNameCore secret st ws (jsSlice (jsTrim (jsStringCoerce rawNickname)) 32) adminToken

/-- The setName handler of src/unnamed/part_000 (lines 100 to 116): the
nickname field is coerced with String(... || ""), so an absent field
becomes the empty string. -/
def handleSetNamePart (secret : String) (st : ServerState) (ws : Nat)
    (rawNickname adminToken : Option String) : ServerState × SetNameResult :=
  setNameCore secret st ws (jsSlice (jsTrim (jsOrEmpty rawNickname)) 32) adminToken

/-- Driver for a sequence of setName requests for one nickname: each
request is a connection id with an optional adminToken, handled in order
by the single-threaded event loop (src/server/index.js variant).  No
connection closes during the sequence. -/
def runClaims (secret name : String) :
    ServerState → List (Nat × Option String) → ServerState × List SetNameResult
  | st, [] => (st, [])
  | st, (ws, tok) :: rest =>
    let r := handleSetName secret st ws (some name) tok
    let rest' := runClaims secret name r.1 rest
    (rest'.1, r.2 :: rest'.2)

/-- Number of ok replies in a list of setName results. -/
def countOk : List SetNameResult → Nat
  | [] => 0
  | SetNameResult.ok _ :: rs => countOk rs + 1
  | SetNameResult.err _ :: rs => countOk rs

/-- At most one live connection holds any given non-null nickname: two
entries of the clients map with the same non-null value are the same
connection. -/
def uniqueNicknames (m : List (Nat × Option String)) : Prop :=
  ∀ p ∈ m, ∀ q ∈ m, p.2 ≠ none → p.2 = q.2 → p.1 = q.1

/-- Effect of one tap on the player row: the prepared statement
updatePlayerAfterTap (UPDATE players SET coins = coins + val,
taps = taps + 1) with val the tap_value just read from the row. -/
def tapOnce (p : Player) : Player :=
  { p with coins := p.coins + p.tap_value, taps := p.taps + 1 }

/-- Outcome of a tap message: either the player row is missing (the
handler returns without replying) or the broadcast tap payload built from
the re-read row. -/
inductive TapOut where
  | noPlayer
  | tapped (nickname : String) (coins taps tap_value : Int)
deriving Repr, DecidableEq

/-- The tap handler of src/server/index.js lines 144 to 153 (identical in
src/unnamed/part_000 lines 121 to 128): read the row, apply
updatePlayerAfterTap, re-read, broadcast.  The re-read of a row just
updated under its primary key cannot fail; that branch mirrors the
re-read coming back empty. -/
def handleTap (st : ServerState) (nickname : String) : ServerState × TapOut :=
  match findPlayer st.players nickname with
  | none => (st, .noPlayer)
  | some _ =>
    let players' := updatePlayer st.players nickname tapOnce
    match findPlayer players' nickname with
    | none => ({ st with players := players' }, .noPlayer)
    | some updated =>
      ({ st with players := players' },
       .tapped updated.nickname updated.coins updated.taps updated.tap_value)

/-- Effect of a successful purchase on the player row, as computed by the
buy handler before the single updatePlayerCoinsTap write: debit the
price, add the item value to tap_value for a tap item or to auto_per_sec
for an auto item, keep taps and icon. -/
def buyApply (p : Player) (item : ShopItem) : Player :=
  { p with coins := p.coins - item.price,
           tap_value := if item.itemType == "tap" then p.tap_value + item.value
                        else p.tap_value,
           auto_per_sec := if item.itemType == "auto" then p.auto_per_sec + item.value
                           else p.auto_per_sec }

/-- Reply to a buy message: buyResult with ok false and a reason, or ok
true with the user snapshot re-read after the write. -/
inductive BuyResult where
  | err (reason : String)
  | ok (nickname : String) (coins tap_value auto_per_sec : Int)
deriving Repr, DecidableEq

/-- The buy handler of src/server/index.js lines 156 to 171 (identical in
src/unnamed/part_000 lines 130 to 144 except that the itemId coercion
there is String(... || "")).  The handler reads player.coins without a
null check, so a missing player row makes the JavaScript throw; that
fallible access is modelled by returning none. -/
def handleBuy (st : ServerState) (nickname : String)
    (rawItemId : Option String) : Option (ServerState × BuyResult) :=
  let itemId := jsStringCoerce rawItemId
  match st.shop.find? (fun it => it.id == itemId) with
  | none => some (st, .err "invalid")
  | some item =>
    match findPlayer st.players nickname with
    | none => none
    | some player =>
      if player.coins < item.price then some (st, .err "not_enough")
      else
        let players' := updatePlayer st.players nickname
          (fun q => { q with
            coins := player.coins - item.price,
            tap_value := if item.itemType == "tap" then player.tap_value + item.value
                         else player.tap_value,
            auto_per_sec := if item.itemType == "auto" then player.auto_per_sec + item.value
                            else player.auto_per_sec,
            taps := player.taps,
            icon := player.icon })
        match findPlayer players' nickname with
        | none => none
        | some updated =>
          some ({ st with players := players' },
                .ok updated.nickname updated.coins updated.tap_value updated.auto_per_sec)

/-- Effect of one firing of the auto-income tick on one player row: rows
are selected WHERE auto_per_sec > 0 and credited coins + auto_per_sec;
other rows are untouched. -/
def autoTickPlayer (p : Player) : Player :=
  if p.auto_per_sec > 0 then { p with coins := p.coins + p.auto_per_sec } else p

/-- Effect of the icon-upload endpoint on an existing player row: the
updatePlayerCoinsTap write re-stores the four counters as read and sets
only the icon column. -/
def setIcon (p : Player) (iconUrl : String) : Player :=
  { p with icon := some iconUrl }

/-- Every player row the server can ever hold: created by a first
successful identity claim or a first icon upload, then mutated only by
taps, catalog purchases (guarded by the affordability check), the
auto-income tick, and icon updates.  The shop table is seeded from
SHOP_DEFAULTS and read-only afterwards, so a purchased item is a seeded
item. -/
inductive ReachablePlayer : Player → Prop where
  | claimCreate (nickname : String) : ReachablePlayer (newPlayer nickname)
  | iconCreate (nickname iconUrl : String) :
      ReachablePlayer (newPlayerWithIcon nickname iconUrl)
  | tap {p : Player} : ReachablePlayer p → ReachablePlayer (tapOnce p)
  | buy {p : Player} (item : ShopItem) : item ∈ shopDefaults →
      item.price ≤ p.coins → ReachablePlayer p → ReachablePlayer (buyApply p item)
  | tick {p : Player} : ReachablePlayer p → ReachablePlayer (autoTickPlayer p)
  | iconUpdate {p : Player} (iconUrl : String) :
      ReachablePlayer p → ReachablePlayer (setIcon p iconUrl)

/-- Outcome of a chat message.  A banCmd or unbanCmd value denotes the
system broadcast of systemText to every connection (and, for banCmd, the
banned notice and forced close sent to each kicked connection); a posted
value denotes the chat broadcast of the stored row with the live
timestamp liveTs in milliseconds.  dropped and cmdIgnored produce no
reply, no stored row and no broadcast. -/
inductive ChatOut where
  | dropped
  | cmdIgnored
  | banCmd (target : String) (kicked : List Nat) (systemText : String)
  | unbanCmd (target : String) (systemText : String)
  | posted (row : ChatRow) (liveTs : Nat)
deriving Repr, DecidableEq

/-- Normal chat path shared by both files: snapshot the sender icon,
append the row with the stored timestamp Math.floor(now / 1000), and
broadcast the message with the live timestamp now (milliseconds). -/
def postChat (st : ServerState) (nickname text : String) (now : Nat) :
    ServerState × ChatOut :=
  let icon := match findPlayer st.players nickname with
    | some p => p.icon
    | none => none
  let row : ChatRow := { nickname := nickname, icon := icon, text := text,
                         ts := now / 1000 }
  ({ st with chatLog := st.chatLog ++ [row] }, .posted row now)

/-- The chat handler of src/server/index.js lines 174 to 213: the text is
coerced, sliced to 500 and then trimmed; empty text returns silently.  If
the sender is exactly admin and the text starts with a slash, the
lowercased first word dispatches the ban and unban commands, each
returning even when the target is missing; any other first word falls
through to the normal chat path.  now is Date.now() in milliseconds. -/
def handleChat (st : ServerState) (nickname : String) (rawText : Option String)
    (now : Nat) : ServerState × ChatOut :=
  let text := jsTrim (jsSlice (jsOrEmpty rawText) 500)
  if text = "" then (st, .dropped)
  else if nickname == "admin" && jsStartsWith text "/" then
    let parts := splitWs text
    let cmd := jsToLower (parts.headD "")
    if cmd = "/ban" then
      match parts[1]? with
      | some target =>
        ({ st with bans := upsertBan st.bans target "banned by admin" },
         .banCmd target
           ((st.clients.filter (fun c => c.2 == some target)).map (fun c => c.1))
           (target ++ " is banned"))
      | none => (st, .cmdIgnored)
    else if cmd = "/bro" then
      match parts[1]? with
      | some target =>
        ({ st with bans := removeBan st.bans target },
         .unbanCmd target (target ++ " is unbanned"))
      | none => (st, .cmdIgnored)
    else postChat st nickname text now
  else postChat st nickname text now

/-- The chat handler of src/unnamed/part_000 lines 146 to 172.  The only
difference from src/server/index.js is the command guard shape: each
command requires its target in the same condition, so a recognized
command with a missing target also falls through to the normal chat
path. -/
def handleChatPart (st : ServerState) (nickname : String)
    (rawText : Option String) (now : Nat) : ServerState × ChatOut :=
  let text := jsTrim (jsSlice (jsOrEmpty rawText) 500)
  if text = "" then (st, .dropped)
  else if nickname == "admin" && jsStartsWith text "/" then
    let parts := splitWs (jsTrim text)
    let cmd := jsToLower (parts.headD "")
    match parts[1]? with
    | some target =>
      if cmd = "/ban" then
        ({ st with bans := upsertBan st.bans target "banned by admin" },
         .banCmd target
           ((st.clients.filter (fun c => c.2 == some target)).map (fun c => c.1))
           (target ++ " is banned"))
      else if cmd = "/bro" then
        ({ st with bans := removeBan st.bans target },
         .unbanCmd target (target ++ " is unbanned"))
      else postChat st nickname text now
    | none => postChat st nickname text now
  else postChat st nickname text now

/-- Server state with no connections, no rows and the seeded shop. -/
def stEmpty : ServerState :=
  { clients := [], players := [], bans := [], chatLog := [], shop := shopDefaults }

/-- A 501-character chat text: 500 spaces followed by one letter. -/
def spaces500a : String :=
  String.mk (List.replicate 500 ' ' ++ ['a'])

/-- Player bob holding 100 coins, used by concrete instances. -/
def pBob100 : Player :=
  { newPlayer "bob" with coins := 100 }

/-- The first seeded shop item. -/
def cheapUpItem : ShopItem :=
  { id := "cheapUp", name := "タップ力 +1", price := 10, itemType := "tap", value := 1 }

/-- Server state whose only player row is bob with 100 coins. -/
def stBob100 : ServerState :=
  { stEmpty with players := [pBob100] }

/-- Server state in which bob is banned. -/
def stBanBob : ServerState :=
  { stEmpty with bans := [("bob", "banned by admin")] }

/-! Helper lemmas about the embedding. -/

/-- Dropping a satisfying run from the front of a list whose front is
already clean is the identity. -/
theorem dropWhile_rdropWhile_self {α : Type} (p : α → Bool) (l : List α)
    (h : l.dropWhile p = l) : (l.rdropWhile p).dropWhile p = l.rdropWhile p := by
  rcases hB : l.rdropWhile p with _ | ⟨b, bs⟩
  · simp
  · obtain ⟨t, ht⟩ := List.rdropWhile_prefix p l
    rw [hB] at ht
    have hl : l = b :: (bs ++ t) := by rw [← ht]; simp
    rw [List.dropWhile_cons]
    have hpb : ¬ p b = true := by
      intro hpb
      rw [hl, List.dropWhile_cons, if_pos hpb] at h
      have hle := (List.dropWhile_sublist (l := bs ++ t) p).length_le
      rw [h] at hle
      simp only [List.length_cons] at hle
      omega
    rw [if_neg hpb]

/-- The JavaScript trim operation is idempotent. -/
theorem jsTrim_idem (s : String) : jsTrim (jsTrim s) = jsTrim s := by
  show String.mk (List.rdropWhile Char.isWhitespace
        (List.dropWhile Char.isWhitespace (List.rdropWhile Char.isWhitespace
          (List.dropWhile Char.isWhitespace s.data)))) =
      String.mk (List.rdropWhile Char.isWhitespace
        (List.dropWhile Char.isWhitespace s.data))
  rw [dropWhile_rdropWhile_self _ _
        (List.dropWhile_idempotent Char.isWhitespace s.data),
      List.rdropWhile_idempotent]

/-- Case split for the shared setName body: either a validation rejection
with the state unchanged, or the success branch with the nickname free. -/
theorem setNameCore_cases (secret : String) (st : ServerState) (ws : Nat)
    (nickname : String) (tok : Option String) :
    (∃ reason, setNameCore secret st ws nickname tok = (st, .err reason)) ∨
    (inUse st.clients nickname = false ∧
      setNameCore secret st ws nickname tok =
        ({ st with
            players := match findPlayer st.players nickname with
              | some _ => st.players
              | none => st.players ++ [newPlayer nickname],
            clients := mapSet st.clients ws (some nickname) },
         .ok nickname)) := by
  unfold setNameCore
  split_ifs with h1 h2 h3 h4
  · exact Or.inl ⟨"empty", rfl⟩
  · exact Or.inl ⟨"admin_auth", rfl⟩
  · exact Or.inl ⟨"banned", rfl⟩
  · exact Or.inl ⟨"inuse", rfl⟩
  · exact Or.inr ⟨by simpa using h4, rfl⟩

/-- After clients.set(ws, nickname) the nickname is in use. -/
theorem inUse_mapSet_self (m : List (Nat × Option String)) (ws : Nat)
    (nickname : String) :
    inUse (mapSet m ws (some nickname)) nickname = true := by
  unfold inUse mapSet
  split_ifs with h
  · rw [List.any_eq_true] at h ⊢
    obtain ⟨p, hp, hps⟩ := h
    exact ⟨(ws, some nickname), List.mem_map.mpr ⟨p, hp, by simp [hps]⟩, by simp⟩
  · rw [List.any_eq_true]
    exact ⟨(ws, some nickname), List.mem_append_right _ (List.mem_singleton.mpr rfl),
      by simp⟩

/-- Binding a currently free nickname preserves uniqueness of the non-null
values of the clients map. -/
theorem uniqueNicknames_mapSet (m : List (Nat × Option String)) (ws : Nat)
    (v : String) (h : uniqueNicknames m) (hfree : inUse m v = false) :
    uniqueNicknames (mapSet m ws (some v)) := by
  have hfree' : ∀ x ∈ m, x.2 ≠ some v := by
    intro x hx hxv
    have hx2 : m.any (fun p => p.2 == some v) = true :=
      List.any_eq_true.mpr ⟨x, hx, by simp [hxv]⟩
    rw [inUse] at hfree
    rw [hx2] at hfree
    cases hfree
  have hmem : ∀ r ∈ mapSet m ws (some v),
      r = (ws, some v) ∨ (r ∈ m ∧ r.2 ≠ some v) := by
    intro r hr
    unfold mapSet at hr
    split_ifs at hr with hws
    · obtain ⟨a, ha, hfa⟩ := List.mem_map.mp hr
      by_cases haw : (a.1 == ws) = true
      · left; rw [if_pos haw] at hfa; exact hfa.symm
      · right; rw [if_neg haw] at hfa; subst hfa; exact ⟨ha, hfree' a ha⟩
    · rcases List.mem_append.mp hr with h1 | h2
      · exact Or.inr ⟨h1, hfree' r h1⟩
      · left; simpa using h2
  intro p hp q hq hpne hpq
  rcases hmem p hp with hp1 | ⟨hp2, hp3⟩ <;> rcases hmem q hq with hq1 | ⟨hq2, hq3⟩
  · rw [hp1, hq1]
  · exact absurd (hpq.symm.trans (by rw [hp1])) hq3
  · exact absurd (hpq.trans (by rw [hq1])) hp3
  · exact h p hp2 q hq2 hpne hpq

/-- One setName step preserves uniqueness of the non-null values of the
clients map. -/
theorem uniqueNicknames_setNameCore (secret : String) (st : ServerState)
    (ws : Nat) (nickname : String) (tok : Option String)
    (h : uniqueNicknames st.clients) :
    uniqueNicknames (setNameCore secret st ws nickname tok).1.clients := by
  rcases setNameCore_cases secret st ws nickname tok with ⟨r, hr⟩ | ⟨hfree, hok⟩
  · rw [hr]; exact h
  · rw [hok]; exact uniqueNicknames_mapSet _ _ _ h hfree

/-- A run of same-nickname setName requests yields no success when the
nickname is already held, and at most one success otherwise. -/
theorem runClaims_countOk_le (secret name : String)
    (reqs : List (Nat × Option String)) :
    ∀ st : ServerState,
      countOk (runClaims secret name st reqs).2 ≤
        (if inUse st.clients (jsSlice (jsTrim name) 32) then 0 else 1) := by
  induction reqs with
  | nil =>
    intro st
    rw [runClaims]
    exact Nat.zero_le _
  | cons head rest ih =>
    obtain ⟨ws, tok⟩ := head
    intro st
    have hEq : handleSetName secret st ws (some name) tok =
        setNameCore secret st ws (jsSlice (jsTrim name) 32) tok := rfl
    rcases setNameCore_cases secret st ws (jsSlice (jsTrim name) 32) tok with
      ⟨r, hr⟩ | ⟨hfree, hok⟩
    · simp only [runClaims, hEq, hr, countOk]
      exact ih st
    · simp only [runClaims, hEq, hok, countOk]
      have hIn :
          inUse (mapSet st.clients ws (some (jsSlice (jsTrim name) 32)))
            (jsSlice (jsTrim name) 32) = true :=
        inUse_mapSet_self st.clients ws (jsSlice (jsTrim name) 32)
      have h0 := ih ({ st with
          players := match findPlayer st.players (jsSlice (jsTrim name) 32) with
            | some _ => st.players
            | none => st.players ++ [newPlayer (jsSlice (jsTrim name) 32)],
          clients := mapSet st.clients ws (some (jsSlice (jsTrim name) 32)) })
      rw [if_pos hIn] at h0
      rw [if_neg (by rw [hfree]; exact Bool.false_ne_true)]
      omega

/-- A run of setName requests preserves uniqueness of the non-null values
of the clients map. -/
theorem runClaims_unique (secret name : String)
    (reqs : List (Nat × Option String)) :
    ∀ st : ServerState, uniqueNicknames st.clients →
      uniqueNicknames (runClaims secret name st reqs).1.clients := by
  induction reqs with
  | nil => intro st h; rw [runClaims]; exact h
  | cons head rest ih =>
    obtain ⟨ws, tok⟩ := head
    intro st h
    simp only [runClaims]
    exact ih _ (uniqueNicknames_setNameCore secret st ws _ tok h)

/-- Re-reading a row just rewritten under its key returns the rewritten
row, provided the rewrite keeps the key. -/
theorem findPlayer_updatePlayer (players : List Player) (n : String)
    (f : Player → Player) (p : Player)
    (hf : ∀ q, (f q).nickname = q.nickname)
    (h : findPlayer players n = some p) :
    findPlayer (updatePlayer players n f) n = some (f p) := by
  induction players with
  | nil => simp [findPlayer] at h
  | cons q rest ih =>
    by_cases hq : (q.nickname == n) = true
    · rw [findPlayer, List.find?_cons_of_pos (p := fun (r : Player) => r.nickname == n) _ hq] at h
      injection h with h
      subst h
      rw [updatePlayer, List.map_cons, if_pos hq, findPlayer]
      exact List.find?_cons_of_pos (p := fun (r : Player) => r.nickname == n) _
        (by show ((f q).nickname == n) = true; rw [hf]; exact hq)
    · rw [findPlayer, List.find?_cons_of_neg (p := fun (r : Player) => r.nickname == n) _ hq] at h
      rw [updatePlayer, List.map_cons, if_neg hq, findPlayer]
      rw [List.find?_cons_of_neg (p := fun (r : Player) => r.nickname == n) _ hq]
      exact ih h

/-- Two row rewrites that agree on rows carrying the key produce the same
table. -/
theorem updatePlayer_congr (players : List Player) (n : String)
    (f g : Player → Player) (h : ∀ q, q.nickname = n → f q = g q) :
    updatePlayer players n f = updatePlayer players n g := by
  unfold updatePlayer
  apply List.map_congr_left
  intro q _
  by_cases hq : (q.nickname == n) = true
  · rw [if_pos hq, if_pos hq, h q (by simpa using hq)]
  · rw [if_neg hq, if_neg hq]

/-- Inversion for the normal chat path: a posted outcome carries the row
appended to the log, with the stored timestamp in whole seconds and the
live timestamp in milliseconds. -/
theorem postChat_posted (st : ServerState) (nickname text : String) (now : Nat)
    (st' : ServerState) (row : ChatRow) (liveTs : Nat)
    (h : postChat st nickname text now = (st', ChatOut.posted row liveTs)) :
    row.ts = now / 1000 ∧ liveTs = now ∧ st'.chatLog = st.chatLog ++ [row] := by
  unfold postChat at h
  rw [Prod.mk.injEq] at h
  obtain ⟨hst, hout⟩ := h
  injection hout with hrow hl
  subst hrow
  subst hl
  subst hst
  exact ⟨rfl, rfl, rfl⟩

/-! Claims. -/

/-- Claim C1 (amended): for every sequence of setName requests for the
same nickname handled while earlier claimants remain connected, at most
one connection succeeds in claiming that nickname, every other request
receives setNameResult with ok false, and the sessions map never holds
the same non-null nickname for two live connections at once.  The counts
bound below gives at most one ok reply, and since every reply is either
ok or err, every other request is refused; the uniqueness invariant is
preserved through the whole run, so it holds in every intermediate state
as well (apply the theorem to any prefix of the request list). -/
theorem setName_at_most_one_success (secret name : String) (st : ServerState)
    (reqs : List (Nat × Option String)) (hu : uniqueNicknames st.clients) :
    countOk (runClaims secret name st reqs).2 ≤ 1 ∧
    uniqueNicknames (runClaims secret name st reqs).1.clients := by
  constructor
  · have h := runClaims_countOk_le secret name reqs st
    split at h
    · omega
    · exact h
  · exact runClaims_unique secret name reqs st hu

/-- Witness for setName_at_most_one_success: two connections race for the
name bob starting from the empty server. -/
theorem setName_at_most_one_success_witness :
    countOk (runClaims "t" "bob" stEmpty [(1, none), (2, none)]).2 ≤ 1 ∧
    uniqueNicknames (runClaims "t" "bob" stEmpty [(1, none), (2, none)]).1.clients :=
  setName_at_most_one_success "t" "bob" stEmpty [(1, none), (2, none)]
    (by intro p hp; exact absurd hp (List.not_mem_nil p))

/-- Counterexample to claim C1 as stated: in a sequence of setName
requests for the nickname admin, the first request carries a wrong token
and is refused with reason admin_auth, while the second request with the
correct token succeeds.  A request other than the successful one thus
received a reason different from inuse, so the clause that every other
request receives reason inuse is false. -/
theorem setName_inuse_reason_counterexample :
    (runClaims "tok" "admin" stEmpty [(1, none), (2, some "tok")]).2 =
      [SetNameResult.err "admin_auth", SetNameResult.ok "admin"] := by decide

/-- Claim C2 (amended): setName validation runs in the fixed short-circuit
order on the trimmed, 32-truncated nickname: empty, then the admin
credential check on the lowercased name, then the ban check, then the
in-use check against every live connection (including the session of the
requester itself), and only when all pass is a fresh Player record
(coins 0, tap_value 1, auto_per_sec 0, taps 0, no icon) created when none
exists, the session bound, and ok returned; each failing check leaves the
state unchanged. -/
theorem setName_validation_order (secret : String) (st : ServerState)
    (ws : Nat) (raw tok : Option String) (nickname : String)
    (hn : nickname = jsSlice (jsTrim (jsStringCoerce raw)) 32) :
    (nickname = "" →
      handleSetName secret st ws raw tok = (st, SetNameResult.err "empty")) ∧
    (nickname ≠ "" → jsToLower nickname = "admin" → tok ≠ some secret →
      handleSetName secret st ws raw tok = (st, SetNameResult.err "admin_auth")) ∧
    (nickname ≠ "" → (jsToLower nickname = "admin" → tok = some secret) →
      (findBan st.bans nickname).isSome = true →
      handleSetName secret st ws raw tok = (st, SetNameResult.err "banned")) ∧
    (nickname ≠ "" → (jsToLower nickname = "admin" → tok = some secret) →
      (findBan st.bans nickname).isSome = false →
      inUse st.clients nickname = true →
      handleSetName secret st ws raw tok = (st, SetNameResult.err "inuse")) ∧
    (nickname ≠ "" → (jsToLower nickname = "admin" → tok = some secret) →
      (findBan st.bans nickname).isSome = false →
      inUse st.clients nickname = false →
      handleSetName secret st ws raw tok =
        ({ st with
            players := match findPlayer st.players nickname with
              | some _ => st.players
              | none => st.players ++ [newPlayer nickname],
            clients := mapSet st.clients ws (some nickname) },
         SetNameResult.ok nickname)) ∧
    newPlayer nickname =
      { nickname := nickname, coins := 0, tap_value := 1, auto_per_sec := 0,
        taps := 0, icon := none } := by
  subst hn
  refine ⟨?_, ?_, ?_, ?_, ?_, rfl⟩
  · intro h1
    unfold handleSetName setNameCore
    rw [if_pos h1]
  · intro h1 h2 h3
    unfold handleSetName setNameCore
    rw [if_neg h1, if_pos ⟨h2, h3⟩]
  · intro h1 h2 h3
    unfold handleSetName setNameCore
    rw [if_neg h1, if_neg (fun hc => hc.2 (h2 hc.1)), if_pos h3]
  · intro h1 h2 h3 h4
    unfold handleSetName setNameCore
    rw [if_neg h1, if_neg (fun hc => hc.2 (h2 hc.1)), if_neg (by rw [h3]; exact Bool.false_ne_true),
      if_pos h4]
  · intro h1 h2 h3 h4
    unfold handleSetName setNameCore
    rw [if_neg h1, if_neg (fun hc => hc.2 (h2 hc.1)), if_neg (by rw [h3]; exact Bool.false_ne_true),
      if_neg (by rw [h4]; exact Bool.false_ne_true)]

/-- Witness for setName_validation_order: one concrete run through each
branch of the validation cascade. -/
theorem setName_validation_order_witness :
    handleSetName "s" stEmpty 1 (some "   ") none = (stEmpty, SetNameResult.err "empty") ∧
    handleSetName "s" stEmpty 1 (some "Admin") none = (stEmpty, SetNameResult.err "admin_auth") ∧
    handleSetName "s" { stEmpty with bans := [("bob", "x")] } 1 (some "bob") none =
      ({ stEmpty with bans := [("bob", "x")] }, SetNameResult.err "banned") ∧
    handleSetName "s" { stEmpty with clients := [(1, some "bob")] } 2 (some "bob") none =
      ({ stEmpty with clients := [(1, some "bob")] }, SetNameResult.err "inuse") ∧
    handleSetName "s" stEmpty 1 (some "bob") none =
      ({ stEmpty with players := [newPlayer "bob"], clients := [(1, some "bob")] },
       SetNameResult.ok "bob") := by
  refine ⟨?_, ?_, ?_, ?_, ?_⟩
  · exact (setName_validation_order "s" stEmpty 1 (some "   ") none "" rfl).1 rfl
  · exact (setName_validation_order "s" stEmpty 1 (some "Admin") none "Admin" rfl).2.1
      (by decide) (by decide) (by decide)
  · exact (setName_validation_order "s" { stEmpty with bans := [("bob", "x")] } 1
      (some "bob") none "bob" rfl).2.2.1 (by decide) (by decide) rfl
  · exact (setName_validation_order "s" { stEmpty with clients := [(1, some "bob")] } 2
      (some "bob") none "bob" rfl).2.2.2.1 (by decide) (by decide) rfl rfl
  · exact (setName_validation_order "s" stEmpty 1 (some "bob") none "bob" rfl).2.2.2.2.1
      (by decide) (by decide) rfl rfl

/-- Counterexample to claim C2 as stated: after connection 1 claims bob, a
repeated setName for bob from the same connection is rejected with reason
inuse although no live connection other than the requester holds the
name, the name is non-empty, not the reserved admin name, and not banned;
the claim as stated would have this request succeed. -/
theorem setName_self_reclaim_counterexample :
    (let st1 := (handleSetName "s" stEmpty 1 (some "bob") none).1
     (st1.clients.any fun c => decide (c.1 ≠ 1) && c.2 == some "bob") = false ∧
     findBan st1.bans "bob" = none ∧
     handleSetName "s" st1 1 (some "bob") none = (st1, SetNameResult.err "inuse")) := by
  decide

/-- Claim C3: every reachable player record satisfies coins at least 0 and
tap_value at least 1: records are created with coins 0 and tap_value 1,
taps and the auto-income tick only add non-negative amounts, a purchase
of a catalog item debits coins only under the affordability check, and
icon updates leave the counters alone. -/
theorem player_invariant_reachable (p : Player) (h : ReachablePlayer p) :
    0 ≤ p.coins ∧ 1 ≤ p.tap_value := by
  induction h with
  | claimCreate n => exact ⟨le_refl 0, le_refl 1⟩
  | iconCreate n u => exact ⟨le_refl 0, le_refl 1⟩
  | tap hp ih =>
    obtain ⟨h1, h2⟩ := ih
    refine ⟨?_, ?_⟩
    · show 0 ≤ _ + _
      omega
    · exact h2
  | buy item hmem hafford hp ih =>
    obtain ⟨h1, h2⟩ := ih
    have hval : 0 ≤ item.value ∧ 0 ≤ item.price := by
      have hall : ∀ it ∈ shopDefaults, 0 ≤ it.value ∧ 0 ≤ it.price := by decide
      exact hall item hmem
    refine ⟨?_, ?_⟩
    · show 0 ≤ _ - _
      omega
    · show 1 ≤ if item.itemType == "tap" then _ + item.value else _
      split <;> omega
  | tick hp ih =>
    obtain ⟨h1, h2⟩ := ih
    unfold autoTickPlayer
    split_ifs with hpos
    · refine ⟨?_, h2⟩
      show 0 ≤ _ + _
      omega
    · exact ⟨h1, h2⟩
  | iconUpdate u hp ih => exact ih

/-- Witness for player_invariant_reachable: a record created for bob,
tapped once and then credited by the tick. -/
theorem player_invariant_reachable_witness :
    0 ≤ (autoTickPlayer (tapOnce (newPlayer "bob"))).coins ∧
    1 ≤ (autoTickPlayer (tapOnce (newPlayer "bob"))).tap_value :=
  player_invariant_reachable (autoTickPlayer (tapOnce (newPlayer "bob")))
    (ReachablePlayer.tick (ReachablePlayer.tap (ReachablePlayer.claimCreate "bob")))

/-- Claim C4: in a run of N tap messages for a player whose record exists,
each tap adds the current tap_value to coins and 1 to taps; tap_value is
never changed by a tap, so after N taps from coins c0 and taps t0 the row
holds coins c0 plus N times tap_value and taps t0 plus N, with the other
columns untouched. -/
theorem tap_sequence_effect (p : Player) (N : Nat) :
    (tapOnce^[N] p).coins = p.coins + (N : Int) * p.tap_value ∧
    (tapOnce^[N] p).taps = p.taps + (N : Int) ∧
    (tapOnce^[N] p).tap_value = p.tap_value ∧
    (tapOnce^[N] p).auto_per_sec = p.auto_per_sec ∧
    (tapOnce^[N] p).icon = p.icon ∧
    (tapOnce^[N] p).nickname = p.nickname := by
  induction N with
  | zero => simp
  | succ n ih =>
    obtain ⟨h1, h2, h3, h4, h5, h6⟩ := ih
    rw [Function.iterate_succ_apply']
    refine ⟨?_, ?_, ?_, ?_, ?_, ?_⟩
    · show (tapOnce^[n] p).coins + (tapOnce^[n] p).tap_value = _
      rw [h1, h3]
      push_cast
      ring
    · show (tapOnce^[n] p).taps + 1 = _
      rw [h2]
      push_cast
      ring
    · exact h3
    · exact h4
    · exact h5
    · exact h6

/-- Claim C5: a buy request for a catalog item whose price exceeds the
coins of the player is answered with buyResult ok false, reason
not_enough, and the whole state, in particular the player record, is
unchanged: no partial deduction ever happens, so a purchase can never
drive coins below zero. -/
theorem buy_not_enough_unchanged (st : ServerState) (nickname : String)
    (raw : Option String) (item : ShopItem) (p : Player)
    (hitem : st.shop.find? (fun it => it.id == jsStringCoerce raw) = some item)
    (hp : findPlayer st.players nickname = some p)
    (hcoins : p.coins < item.price) :
    handleBuy st nickname raw = some (st, BuyResult.err "not_enough") := by
  simp only [handleBuy]
  rw [hitem, hp]
  dsimp only
  rw [if_pos hcoins]

/-- Witness for buy_not_enough_unchanged: bob with 0 coins tries to buy
the 10-coin item cheapUp. -/
theorem buy_not_enough_unchanged_witness :
    handleBuy { stEmpty with players := [newPlayer "bob"] } "bob" (some "cheapUp") =
      some ({ stEmpty with players := [newPlayer "bob"] }, BuyResult.err "not_enough") :=
  buy_not_enough_unchanged { stEmpty with players := [newPlayer "bob"] } "bob"
    (some "cheapUp")
    { id := "cheapUp", name := "タップ力 +1", price := 10, itemType := "tap", value := 1 }
    (newPlayer "bob") rfl rfl (by decide)

/-- Claim C6: a successful purchase debits coins by exactly the price,
adds the item value to tap_value for a tap item leaving auto_per_sec
unchanged, adds it to auto_per_sec for an auto item leaving tap_value
unchanged, and keeps taps and icon; the reply carries the updated row and
only the player table changes. -/
theorem buy_success_effect (st : ServerState) (nickname : String)
    (raw : Option String) (item : ShopItem) (p : Player)
    (hitem : st.shop.find? (fun it => it.id == jsStringCoerce raw) = some item)
    (hp : findPlayer st.players nickname = some p)
    (hcoins : item.price ≤ p.coins) :
    handleBuy st nickname raw =
      some ({ st with players := updatePlayer st.players nickname (fun _ => buyApply p item) },
            BuyResult.ok (buyApply p item).nickname (buyApply p item).coins
              (buyApply p item).tap_value (buyApply p item).auto_per_sec) ∧
    findPlayer (updatePlayer st.players nickname (fun _ => buyApply p item)) nickname
      = some (buyApply p item) ∧
    (buyApply p item).coins = p.coins - item.price ∧
    (buyApply p item).taps = p.taps ∧
    (buyApply p item).icon = p.icon ∧
    (buyApply p item).nickname = p.nickname ∧
    (item.itemType = "tap" →
      (buyApply p item).tap_value = p.tap_value + item.value ∧
      (buyApply p item).auto_per_sec = p.auto_per_sec) ∧
    (item.itemType = "auto" →
      (buyApply p item).auto_per_sec = p.auto_per_sec + item.value ∧
      (buyApply p item).tap_value = p.tap_value) := by
  have hp' : List.find? (fun r => r.nickname == nickname) st.players = some p := hp
  have hpn : p.nickname = nickname := by
    have hb := List.find?_some hp'
    simpa using hb
  have hfind2 := findPlayer_updatePlayer st.players nickname
    (fun q => { q with
      coins := p.coins - item.price,
      tap_value := if item.itemType == "tap" then p.tap_value + item.value
                   else p.tap_value,
      auto_per_sec := if item.itemType == "auto" then p.auto_per_sec + item.value
                      else p.auto_per_sec,
      taps := p.taps, icon := p.icon }) p (fun q => rfl) hp
  have hcongr := updatePlayer_congr st.players nickname
    (fun q => { q with
      coins := p.coins - item.price,
      tap_value := if item.itemType == "tap" then p.tap_value + item.value
                   else p.tap_value,
      auto_per_sec := if item.itemType == "auto" then p.auto_per_sec + item.value
                      else p.auto_per_sec,
      taps := p.taps, icon := p.icon })
    (fun _ => buyApply p item)
    (by intro q hq; dsimp only; unfold buyApply; rw [hq, hpn])
  refine ⟨?_, ?_, rfl, rfl, rfl, rfl, ?_, ?_⟩
  · simp only [handleBuy]
    rw [hitem, hp]
    dsimp only
    rw [if_neg (not_lt.mpr hcoins), hfind2]
    dsimp only
    rw [hcongr]
    rfl
  · rw [← hcongr]
    exact hfind2
  · intro h
    unfold buyApply
    dsimp only
    rw [h]
    refine ⟨?_, ?_⟩
    · rw [if_pos (by decide : (("tap" : String) == "tap") = true)]
    · rw [if_neg (by decide : ¬ (("tap" : String) == "auto") = true)]
  · intro h
    unfold buyApply
    dsimp only
    rw [h]
    refine ⟨?_, ?_⟩
    · rw [if_pos (by decide : (("auto" : String) == "auto") = true)]
    · rw [if_neg (by decide : ¬ (("auto" : String) == "tap") = true)]

/-- Witness for buy_success_effect: bob with 100 coins buys the tap item
cheapUp for 10 coins and ends with 90 coins and tap_value 2. -/
theorem buy_success_effect_witness :
    handleBuy stBob100 "bob" (some "cheapUp") =
      some ({ stBob100 with players := updatePlayer stBob100.players "bob" (fun _ => buyApply pBob100 cheapUpItem) },
            BuyResult.ok (buyApply pBob100 cheapUpItem).nickname
              (buyApply pBob100 cheapUpItem).coins
              (buyApply pBob100 cheapUpItem).tap_value
              (buyApply pBob100 cheapUpItem).auto_per_sec) ∧
    findPlayer (updatePlayer stBob100.players "bob" (fun _ => buyApply pBob100 cheapUpItem)) "bob"
      = some (buyApply pBob100 cheapUpItem) ∧
    (buyApply pBob100 cheapUpItem).coins = pBob100.coins - cheapUpItem.price ∧
    (buyApply pBob100 cheapUpItem).taps = pBob100.taps ∧
    (buyApply pBob100 cheapUpItem).icon = pBob100.icon ∧
    (buyApply pBob100 cheapUpItem).nickname = pBob100.nickname ∧
    (cheapUpItem.itemType = "tap" →
      (buyApply pBob100 cheapUpItem).tap_value = pBob100.tap_value + cheapUpItem.value ∧
      (buyApply pBob100 cheapUpItem).auto_per_sec = pBob100.auto_per_sec) ∧
    (cheapUpItem.itemType = "auto" →
      (buyApply pBob100 cheapUpItem).auto_per_sec = pBob100.auto_per_sec + cheapUpItem.value ∧
      (buyApply pBob100 cheapUpItem).tap_value = pBob100.tap_value) :=
  buy_success_effect stBob100 "bob" (some "cheapUp") cheapUpItem pBob100 rfl rfl
    (by decide)

/-- Claim C7 (amended): for every chat message the text is first truncated
to 500 characters and then trimmed, in that order (the reverse of the
claim as stated), and a text that is empty after this processing is
silently dropped by both source variants: no error reply, no stored
ChatMessage, no broadcast, and the state is unchanged. -/
theorem chat_truncate_then_trim_drop (st : ServerState) (nickname : String)
    (raw : Option String) (now : Nat)
    (h : jsTrim (jsSlice (jsOrEmpty raw) 500) = "") :
    handleChat st nickname raw now = (st, ChatOut.dropped) ∧
    handleChatPart st nickname raw now = (st, ChatOut.dropped) := by
  constructor
  · simp only [handleChat]
    rw [if_pos h]
  · simp only [handleChatPart]
    rw [if_pos h]

/-- Witness for chat_truncate_then_trim_drop: a message of three spaces is
dropped by both variants. -/
theorem chat_truncate_then_trim_drop_witness :
    handleChat stEmpty "bob" (some "   ") 5 = (stEmpty, ChatOut.dropped) ∧
    handleChatPart stEmpty "bob" (some "   ") 5 = (stEmpty, ChatOut.dropped) :=
  chat_truncate_then_trim_drop stEmpty "bob" (some "   ") 5 (by decide)

set_option maxRecDepth 4000 in
/-- Counterexample to claim C7 as stated: on the 501-character text of 500
spaces followed by the letter a, trimming first and then truncating (the
order the claim states) leaves the non-empty text a, which would be
recorded; the code truncates first and then trims, obtains the empty
string, and silently drops the message in both variants. -/
theorem chat_trim_order_counterexample :
    jsSlice (jsTrim spaces500a) 500 = "a" ∧
    jsTrim (jsSlice spaces500a 500) = "" ∧
    handleChat stEmpty "bob" (some spaces500a) 1000 = (stEmpty, ChatOut.dropped) ∧
    handleChatPart stEmpty "bob" (some spaces500a) 1000 = (stEmpty, ChatOut.dropped) := by
  decide

/-- Claim C8 (amended): for an admin-issued command message (sender
exactly admin, text starting with a slash), a bro command with a target
deletes the Ban row for the target and broadcasts a system notice without
recording any chat message, in both source variants; a ban or bro command
lacking a target is silently ignored in src/server/index.js but falls
through to normal chat in src/unnamed/part_000; and an unrecognized
command token is not ignored: in both variants the text falls through to
the normal chat path, where it is recorded in the log and broadcast. -/
theorem chat_admin_command_dispatch (st : ServerState) (raw : Option String)
    (now : Nat) (target : String)
    (hne : jsTrim (jsSlice (jsOrEmpty raw) 500) ≠ "")
    (hslash : jsStartsWith (jsTrim (jsSlice (jsOrEmpty raw) 500)) "/" = true) :
    (jsToLower ((splitWs (jsTrim (jsSlice (jsOrEmpty raw) 500))).headD "") = "/bro" →
      (splitWs (jsTrim (jsSlice (jsOrEmpty raw) 500)))[1]? = some target →
      handleChat st "admin" raw now =
        ({ st with bans := removeBan st.bans target },
         ChatOut.unbanCmd target (target ++ " is unbanned")) ∧
      handleChatPart st "admin" raw now =
        ({ st with bans := removeBan st.bans target },
         ChatOut.unbanCmd target (target ++ " is unbanned"))) ∧
    ((jsToLower ((splitWs (jsTrim (jsSlice (jsOrEmpty raw) 500))).headD "") = "/ban" ∨
      jsToLower ((splitWs (jsTrim (jsSlice (jsOrEmpty raw) 500))).headD "") = "/bro") →
      (splitWs (jsTrim (jsSlice (jsOrEmpty raw) 500)))[1]? = none →
      handleChat st "admin" raw now = (st, ChatOut.cmdIgnored) ∧
      handleChatPart st "admin" raw now =
        postChat st "admin" (jsTrim (jsSlice (jsOrEmpty raw) 500)) now) ∧
    (jsToLower ((splitWs (jsTrim (jsSlice (jsOrEmpty raw) 500))).headD "") ≠ "/ban" →
      jsToLower ((splitWs (jsTrim (jsSlice (jsOrEmpty raw) 500))).headD "") ≠ "/bro" →
      handleChat st "admin" raw now =
        postChat st "admin" (jsTrim (jsSlice (jsOrEmpty raw) 500)) now ∧
      handleChatPart st "admin" raw now =
        postChat st "admin" (jsTrim (jsSlice (jsOrEmpty raw) 500)) now) ∧
    (∀ nick text2, ∃ row, postChat st nick text2 now =
      ({ st with chatLog := st.chatLog ++ [row] }, ChatOut.posted row now)) := by
  have hid : jsTrim (jsTrim (jsSlice (jsOrEmpty raw) 500)) =
      jsTrim (jsSlice (jsOrEmpty raw) 500) := jsTrim_idem _
  have hc : (("admin" : String) == "admin" &&
      jsStartsWith (jsTrim (jsSlice (jsOrEmpty raw) 500)) "/") = true := by
    rw [hslash]
    rfl
  refine ⟨?_, ?_, ?_, ?_⟩
  · intro hcmd hidx
    constructor
    · simp only [handleChat]
      rw [if_neg hne, if_pos hc, if_neg (by rw [hcmd]; decide), if_pos hcmd, hidx]
    · simp only [handleChatPart]
      rw [if_neg hne, if_pos hc, hid, hidx]
      dsimp only
      rw [if_neg (by rw [hcmd]; decide), if_pos hcmd]
  · intro hcmd hidx
    constructor
    · simp only [handleChat]
      rw [if_neg hne, if_pos hc]
      rcases hcmd with h3 | h3
      · rw [if_pos h3, hidx]
      · rw [if_neg (by rw [h3]; decide), if_pos h3, hidx]
    · simp only [handleChatPart]
      rw [if_neg hne, if_pos hc, hid, hidx]
  · intro h3 h4
    constructor
    · simp only [handleChat]
      rw [if_neg hne, if_pos hc, if_neg h3, if_neg h4]
    · simp only [handleChatPart]
      rw [if_neg hne, if_pos hc, hid]
      cases hidx : (splitWs (jsTrim (jsSlice (jsOrEmpty raw) 500)))[1]? with
      | none => rfl
      | some t =>
        dsimp only
        rw [if_neg h3, if_neg h4]
  · intro nick text2
    exact ⟨_, rfl⟩

/-- Witness for chat_admin_command_dispatch: the admin unbans bob with a
bro command, sends a targetless ban command, and sends the unrecognized
command kick. -/
theorem chat_admin_command_dispatch_witness :
    (handleChat stBanBob "admin" (some "/bro bob") 7 =
      ({ stBanBob with bans := removeBan stBanBob.bans "bob" },
       ChatOut.unbanCmd "bob" "bob is unbanned") ∧
     handleChatPart stBanBob "admin" (some "/bro bob") 7 =
      ({ stBanBob with bans := removeBan stBanBob.bans "bob" },
       ChatOut.unbanCmd "bob" "bob is unbanned")) ∧
    (handleChat stEmpty "admin" (some "/ban") 7 = (stEmpty, ChatOut.cmdIgnored) ∧
     handleChatPart stEmpty "admin" (some "/ban") 7 =
      postChat stEmpty "admin" (jsTrim (jsSlice (jsOrEmpty (some "/ban")) 500)) 7) ∧
    (handleChat stEmpty "admin" (some "/kick bob") 7 =
      postChat stEmpty "admin" (jsTrim (jsSlice (jsOrEmpty (some "/kick bob")) 500)) 7 ∧
     handleChatPart stEmpty "admin" (some "/kick bob") 7 =
      postChat stEmpty "admin" (jsTrim (jsSlice (jsOrEmpty (some "/kick bob")) 500)) 7) :=
  ⟨(chat_admin_command_dispatch stBanBob (some "/bro bob") 7 "bob" (by decide)
      (by decide)).1 (by decide) (by decide),
   (chat_admin_command_dispatch stEmpty (some "/ban") 7 "" (by decide)
      (by decide)).2.1 (Or.inl (by decide)) (by decide),
   (chat_admin_command_dispatch stEmpty (some "/kick bob") 7 "" (by decide)
      (by decide)).2.2.1 (by decide) (by decide)⟩

/-- Counterexample to claim C8 as stated: the admin sends the unrecognized
command kick; instead of being silently ignored with nothing recorded or
broadcast, the text is recorded in the chat log and broadcast as a normal
chat message. -/
theorem chat_unknown_command_counterexample :
    (handleChat stEmpty "admin" (some "/kick bob") 2000).1.chatLog =
      [{ nickname := "admin", icon := none, text := "/kick bob", ts := 2 }] ∧
    (handleChat stEmpty "admin" (some "/kick bob") 2000).2 =
      ChatOut.posted { nickname := "admin", icon := none, text := "/kick bob", ts := 2 }
        2000 := by
  decide

/-- Claim C9 (amended): the two source variants are not input-output
equivalent on setName: for a setName message whose nickname field is
absent, src/server/index.js computes String(undefined), the literal
string undefined, and, when that name is neither banned nor held by a
live connection, claims the literal nickname undefined, whereas
src/unnamed/part_000 computes the empty string and rejects the request
with reason empty. -/
theorem setName_variants_divergence (secret : String) (st : ServerState)
    (ws : Nat) (tok : Option String)
    (hban : (findBan st.bans "undefined").isSome = false)
    (hfree : inUse st.clients "undefined" = false) :
    handleSetNamePart secret st ws none tok = (st, SetNameResult.err "empty") ∧
    handleSetName secret st ws none tok =
      ({ st with
          players := match findPlayer st.players "undefined" with
            | some _ => st.players
            | none => st.players ++ [newPlayer "undefined"],
          clients := mapSet st.clients ws (some "undefined") },
       SetNameResult.ok "undefined") := by
  constructor
  · rfl
  · show setNameCore secret st ws "undefined" tok = _
    unfold setNameCore
    rw [if_neg (by decide : ¬ ("undefined" : String) = ""),
      if_neg (fun hc => absurd hc.1 (by decide)),
      if_neg (by rw [hban]; exact Bool.false_ne_true),
      if_neg (by rw [hfree]; exact Bool.false_ne_true)]

/-- Witness for setName_variants_divergence: the empty server handles a
setName message with no nickname field. -/
theorem setName_variants_divergence_witness :
    handleSetNamePart "s" stEmpty 1 none none = (stEmpty, SetNameResult.err "empty") ∧
    handleSetName "s" stEmpty 1 none none =
      ({ stEmpty with
          players := match findPlayer stEmpty.players "undefined" with
            | some _ => stEmpty.players
            | none => stEmpty.players ++ [newPlayer "undefined"],
          clients := mapSet stEmpty.clients 1 (some "undefined") },
       SetNameResult.ok "undefined") :=
  setName_variants_divergence "s" stEmpty 1 none rfl rfl

/-- Counterexample to the equivalence clause of claim C9: on the concrete
input with an absent nickname field the two variants return different
outputs from the same state, one claiming the nickname undefined and one
rejecting with reason empty. -/
theorem setName_variants_not_equivalent :
    handleSetName "s" stEmpty 1 none none ≠
      handleSetNamePart "s" stEmpty 1 none none := by
  decide

/-- Claim C10: every recorded chat message is stored in the log with the
timestamp Math.floor(now / 1000), in whole seconds, while the live chat
broadcast of the same message carries now itself, in milliseconds; for
any positive wall clock the two values differ, so a client receiving the
live broadcast and a client later replaying the stored row from the init
history observe different ts values for the same message. -/
theorem chat_timestamp_units (st : ServerState) (nickname : String)
    (raw : Option String) (now : Nat) (st' : ServerState) (row : ChatRow)
    (liveTs : Nat)
    (h : handleChat st nickname raw now = (st', ChatOut.posted row liveTs)) :
    row.ts = now / 1000 ∧ liveTs = now ∧ st'.chatLog = st.chatLog ++ [row] ∧
    (1 ≤ now → row.ts ≠ liveTs) := by
  have key : row.ts = now / 1000 ∧ liveTs = now ∧
      st'.chatLog = st.chatLog ++ [row] := by
    simp only [handleChat] at h
    by_cases h1 : jsTrim (jsSlice (jsOrEmpty raw) 500) = ""
    · rw [if_pos h1] at h
      simp at h
    rw [if_neg h1] at h
    by_cases h2 : (nickname == "admin" &&
        jsStartsWith (jsTrim (jsSlice (jsOrEmpty raw) 500)) "/") = true
    · rw [if_pos h2] at h
      by_cases h3 : jsToLower ((splitWs (jsTrim (jsSlice (jsOrEmpty raw) 500))).headD "")
          = "/ban"
      · rw [if_pos h3] at h
        cases h4 : (splitWs (jsTrim (jsSlice (jsOrEmpty raw) 500)))[1]? with
        | none => rw [h4] at h; simp at h
        | some t => rw [h4] at h; simp at h
      · rw [if_neg h3] at h
        by_cases h5 : jsToLower ((splitWs (jsTrim (jsSlice (jsOrEmpty raw) 500))).headD "")
            = "/bro"
        · rw [if_pos h5] at h
          cases h4 : (splitWs (jsTrim (jsSlice (jsOrEmpty raw) 500)))[1]? with
          | none => rw [h4] at h; simp at h
          | some t => rw [h4] at h; simp at h
        · rw [if_neg h5] at h
          exact postChat_posted _ _ _ _ _ _ _ h
    · rw [if_neg h2] at h
      exact postChat_posted _ _ _ _ _ _ _ h
  obtain ⟨k1, k2, k3⟩ := key
  refine ⟨k1, k2, k3, ?_⟩
  intro hnow
  rw [k1, k2]
  exact Nat.ne_of_lt (Nat.div_lt_self (by omega) (by omega))

/-- Witness for chat_timestamp_units: bob posts hi at wall clock 1234
milliseconds; the stored row carries second 1 and the broadcast carries
1234. -/
theorem chat_timestamp_units_witness :
    ({ nickname := "bob", icon := none, text := "hi", ts := 1234 / 1000 } : ChatRow).ts
      = 1234 / 1000 ∧
    (1234 : Nat) = 1234 ∧
    ({ stEmpty with chatLog := [{ nickname := "bob", icon := none, text := "hi", ts := 1234 / 1000 }] } : ServerState).chatLog =
      stEmpty.chatLog ++ [{ nickname := "bob", icon := none, text := "hi", ts := 1234 / 1000 }] ∧
    (1 ≤ 1234 →
      ({ nickname := "bob", icon := none, text := "hi", ts := 1234 / 1000 } : ChatRow).ts
        ≠ 1234) :=
  chat_timestamp_units stEmpty "bob" (some "hi") 1234
    { stEmpty with chatLog := [{ nickname := "bob", icon := none, text := "hi", ts := 1234 / 1000 }] }
    { nickname := "bob", icon := none, text := "hi", ts := 1234 / 1000 } 1234 rfl

end Clicker
